import Mathlib

/-!
Shallow embedding of the eve_chainkills event pipeline.

The Go source is translated into executable Lean definitions:
* `model.go`            → `Victim`, `Attacker`, `ZKB`, `ZkillMail`, `EsiKillMail`,
                          `FlattenedKillMail`, `SystemInfo`, `MapCharacter`
* `chainkills` checker  → `ChainKillChecker`, `updateSystems`, `handleZKillMessage`,
                          `connectIter` / `closeChecker` (reconnect loop)
* `killdetails.go`      → `GetKillDetails` (with the `EsiOracle` abstracting ESI
                          responses and a `Lookup` log recording issued calls)
* embed composer        → `CreateEmbed`, `formatISKValue`, `parseHexColor`

Network calls are abstracted by oracles (`EsiOracle`, `UpdateOutcome`) supplying the
response each call would have produced; elapsed wall-clock minutes are inputs.
-/

/-- `Victim` mirrors the Go struct in model.go. -/
structure Victim where
  allianceID : Int := 0
  corporationID : Int := 0
  characterID : Int := 0
  damageTaken : Int := 0
  shipTypeID : Int := 0
deriving DecidableEq, Repr

/-- `Attacker` mirrors the Go struct in model.go (securityStatus is a float64 in Go,
modelled as an exact rational). -/
structure Attacker where
  allianceID : Int := 0
  characterID : Int := 0
  corporationID : Int := 0
  damageDone : Int := 0
  finalBlow : Bool := false
  securityStatus : ℚ := 0
  shipTypeID : Int := 0
  weaponTypeID : Int := 0
deriving DecidableEq, Repr

/-- `ZKB` mirrors the zkb block of a zKill message (float64 values as exact rationals). -/
structure ZKB where
  locationID : Int := 0
  hash : String := ""
  fittedValue : ℚ := 0
  droppedValue : ℚ := 0
  destroyedValue : ℚ := 0
  totalValue : ℚ := 0
  points : Int := 0
  npc : Bool := false
  solo : Bool := false
  awox : Bool := false
deriving DecidableEq, Repr

/-- `ZkillMail`: a parsed zKillboard feed message. -/
structure ZkillMail where
  killmailID : Int := 0
  solarSystemID : Int := 0
  victim : Victim := {}
  attackers : List Attacker := []
  zkb : ZKB := {}
deriving DecidableEq, Repr

/-- `EsiKillMail`: what ESI returns for a killmail lookup (time.Time kept opaque
as a string). -/
structure EsiKillMail where
  killMailID : Int := 0
  killMailTime : String := ""
  solarSystemID : Int := 0
  victim : Victim := {}
  attackers : List Attacker := []
deriving DecidableEq, Repr

/-- `FlattenedKillMail` merges zKill + ESI data, mirroring model.go; all defaults are
the Go zero values. -/
structure FlattenedKillMail where
  killMailID : Int := 0
  hash : String := ""
  killMailTime : String := ""
  solarSystemID : Int := 0
  locationID : Int := 0
  fittedValue : ℚ := 0
  droppedValue : ℚ := 0
  destroyedValue : ℚ := 0
  totalValue : ℚ := 0
  points : Int := 0
  npc : Bool := false
  solo : Bool := false
  awox : Bool := false
  systemName : String := ""
  victim : Victim := {}
  attackers : List Attacker := []
  victimCharacterName : String := ""
  finalAttackerID : Int := 0
  finalAttackerName : String := ""
  finalAttackerCorpID : Int := 0
  finalAttackerAllianceID : Int := 0
  finalAttackerShipName : String := ""
  finalAttackerCorpName : String := ""
  finalAttackerAllianceName : String := ""
  victimShipName : String := ""
  victimCorpName : String := ""
  victimAllianceName : String := ""
deriving DecidableEq, Repr

/-- `SystemInfo`: a monitored system entry from the map API. -/
structure SystemInfo where
  systemId : Int
  «alias» : String
deriving DecidableEq, Repr

/-- `MapCharacter`: a local ("map") character entry; the character id is kept as the
string the API delivered (Go compares it with `strconv.Itoa`). -/
structure MapCharacter where
  characterId : String
  corporationId : Int := 0
  allianceId : Int := 0
deriving DecidableEq, Repr

/-- Config fields consumed by the checker and the embed composer (config.go). -/
structure AppConfig where
  ignoreSystemIds : List Int := []
  insightTrackedIds : List Int := []
  discordStatusReportMins : Int := 0
  killColor : String := ""
  lossColor : String := ""
deriving DecidableEq, Repr

/-- In-memory checker state (the fields of `ChainKillChecker` that the classification
logic reads and the refresh logic writes; connection plumbing and timestamps are
modelled as step inputs instead). -/
structure ChainKillChecker where
  ignoreSystemIds : List Int := []
  insightTrackedIds : List Int := []
  minToSendDiscord : Int := 0
  systems : List SystemInfo := []
  mapCharacters : List MapCharacter := []
  minToGetLatestSystems : Int := 0
deriving DecidableEq, Repr

/-- `NewChainKillChecker`: the constructor copies config lists and hardcodes
`minToGetLatestSystems` to 0 ("was 0 in the JS code"). -/
def NewChainKillChecker (config : AppConfig) : ChainKillChecker :=
  { ignoreSystemIds := config.ignoreSystemIds
    insightTrackedIds := config.insightTrackedIds
    minToSendDiscord := config.discordStatusReportMins
    systems := []
    mapCharacters := []
    minToGetLatestSystems := 0 }

/-- Go's `int(f)` conversion of a float64 number of minutes: truncation toward zero. -/
def goTruncInt (q : ℚ) : Int :=
  if 0 ≤ q then ⌊q⌋ else -⌊-q⌋

/-- Whether `int(minSinceLast) > threshold` fires (the guard used for both the status
message and the systems refresh in `handleZKillMessage`). -/
def refreshTriggered (minSinceLast : ℚ) (threshold : Int) : Bool :=
  goTruncInt minSinceLast > threshold

/-- Victim-rule match: some tracked id equals the victim's corporation or alliance id
(the first loop of `handleZKillMessage`). -/
def victimMatchB (ck : ChainKillChecker) (zm : ZkillMail) : Bool :=
  ck.insightTrackedIds.any fun tid =>
    tid == zm.victim.corporationID || tid == zm.victim.allianceID

/-- Whether one attacker's character id appears in the local (map) character set;
Go compares `mc.CharacterId == strconv.Itoa(att.CharacterID)`. -/
def isMapCharacter (ck : ChainKillChecker) (att : Attacker) : Bool :=
  ck.mapCharacters.any fun mc => mc.characterId == toString att.characterID

/-- Attacker-rule match: some attacker's corporation or alliance id is tracked, or its
character id is a local character (the second loop of `handleZKillMessage`). -/
def attackerMatchB (ck : ChainKillChecker) (zm : ZkillMail) : Bool :=
  zm.attackers.any fun att =>
    (ck.insightTrackedIds.any fun tid =>
      att.corporationID == tid || att.allianceID == tid) || isMapCharacter ck att

/-- Whether any attacker is a local character (the system-match suppression loop). -/
def foundMappedAttackerB (ck : ChainKillChecker) (zm : ZkillMail) : Bool :=
  zm.attackers.any fun att => isMapCharacter ck att

/-- The monitored-system entry matched by the event's location, if any (first entry
whose `SystemId` equals the event's solar system id). -/
def matchedSystem (ck : ChainKillChecker) (zm : ZkillMail) : Option SystemInfo :=
  ck.systems.find? fun s => s.systemId == zm.solarSystemID

/-- Classification outcome of one event, as decided by `handleZKillMessage`:
`loss`/`kill` dispatch a corp-kill embed, `systemMatch` a chain alert, `noMatch`
nothing. -/
inductive Classification where
  | loss
  | kill
  | systemMatch
  | noMatch
deriving DecidableEq, Repr

/-- The decision core of `handleZKillMessage`: victim rule, then attacker rule, then
monitored-system rule with the ignore list and local-attacker suppression. -/
def classify (ck : ChainKillChecker) (zm : ZkillMail) : Classification :=
  if victimMatchB ck zm then .loss
  else if attackerMatchB ck zm then .kill
  else
    match matchedSystem ck zm with
    | some s =>
        if ck.ignoreSystemIds.contains s.systemId then .noMatch
        else if foundMappedAttackerB ck zm then .noMatch
        else .systemMatch
    | none => .noMatch

/-- A detail-provider call issued by the enricher (killdetails.go's `fetch*` helpers). -/
inductive Lookup where
  | killmail (id : Int) (hash : String)
  | system (id : Int)
  | typeName (id : Int)
  | character (id : Int)
  | corporation (id : Int)
  | alliance (id : Int)
deriving DecidableEq, Repr

/-- The ESI detail provider, abstracted as the response each HTTP call would have
produced (`Except`'s error arm covers transport errors, bad statuses and decode
failures alike). -/
structure EsiOracle where
  killmail : Int → String → Except String EsiKillMail
  characterName : Int → Except String String
  corporationName : Int → Except String String
  allianceName : Int → Except String String
  typeName : Int → Except String String
  systemName : Int → Except String String

/-- The index scan of `GetKillDetails`: the loop breaks at the first attacker whose
`final_blow` flag is set. -/
def firstFinalBlowIdx : List Attacker → Option Nat
  | [] => none
  | att :: rest =>
      if att.finalBlow then some 0 else (firstFinalBlowIdx rest).map (· + 1)

/-- The final-blow index selection of `GetKillDetails`: first attacker flagged
`final_blow`, else index 0 when the list is non-empty, else -1. -/
def finalAttackerIdx (attackers : List Attacker) : Int :=
  match firstFinalBlowIdx attackers with
  | some i => (i : Int)
  | none => if attackers.length > 0 then 0 else -1

/-- The attacker `GetKillDetails` reads at the selected index (`km.Attackers[finalIdx]`,
guarded by `finalIdx >= 0` in the source). -/
def selectedFinalAttacker (attackers : List Attacker) : Option Attacker :=
  if 0 ≤ finalAttackerIdx attackers then attackers.get? (finalAttackerIdx attackers).toNat
  else none

/-- The final-attacker block of `GetKillDetails` (killdetails.go lines 95-130): seeds
the final-attacker ids from the selected attacker and best-effort resolves its
character/corporation/alliance/ship names, ignoring lookup errors. -/
def finalAttackerEnrich (o : EsiOracle) (attackers : List Attacker)
    (fkm : FlattenedKillMail) : FlattenedKillMail × List Lookup :=
  match selectedFinalAttacker attackers with
  | none => (fkm, [])
  | some final =>
      let fkm := { fkm with
        finalAttackerID := final.characterID
        finalAttackerCorpID := final.corporationID
        finalAttackerAllianceID := final.allianceID }
      let (fkm, log) :=
        if final.characterID > 0 then
          ({ fkm with finalAttackerName := (o.characterName final.characterID).toOption.getD "" },
           [Lookup.character final.characterID])
        else (fkm, [])
      let (fkm, log) :=
        if fkm.finalAttackerCorpID > 0 then
          ({ fkm with finalAttackerCorpName := (o.corporationName final.corporationID).toOption.getD "" },
           log ++ [Lookup.corporation final.corporationID])
        else (fkm, log)
      let (fkm, log) :=
        if fkm.finalAttackerAllianceID > 0 then
          ({ fkm with finalAttackerAllianceName := (o.allianceName final.allianceID).toOption.getD "" },
           log ++ [Lookup.alliance final.allianceID])
        else (fkm, log)
      let (fkm, log) :=
        if final.shipTypeID > 0 then
          ({ fkm with finalAttackerShipName := (o.typeName final.shipTypeID).toOption.getD "" },
           log ++ [Lookup.typeName final.shipTypeID])
        else (fkm, log)
      (fkm, log)

/-- Lines 77-84 of `GetKillDetails`: resolve the system name when the solar system id
is positive; on error the field keeps its previous value. -/
def systemNameStep (o : EsiOracle) (st : FlattenedKillMail × List Lookup) :
    FlattenedKillMail × List Lookup :=
  let fkm := st.1
  if fkm.solarSystemID > 0 then
    (match o.systemName fkm.solarSystemID with
     | .ok n => { fkm with systemName := n }
     | .error _ => fkm,
     st.2 ++ [Lookup.system fkm.solarSystemID])
  else st

/-- Lines 86-93: resolve the victim ship type name when its id is positive. -/
def victimShipStep (o : EsiOracle) (st : FlattenedKillMail × List Lookup) :
    FlattenedKillMail × List Lookup :=
  let fkm := st.1
  if fkm.victim.shipTypeID > 0 then
    (match o.typeName fkm.victim.shipTypeID with
     | .ok n => { fkm with victimShipName := n }
     | .error _ => fkm,
     st.2 ++ [Lookup.typeName fkm.victim.shipTypeID])
  else st

/-- Lines 95-130: the final-attacker block, applied to the merged record (whose
attacker list is the ESI one). -/
def finalAttackerStep (o : EsiOracle) (st : FlattenedKillMail × List Lookup) :
    FlattenedKillMail × List Lookup :=
  let r := finalAttackerEnrich o st.1.attackers st.1
  (r.1, st.2 ++ r.2)

/-- Lines 132-139: resolve the victim character name (assigned only on success). -/
def victimCharStep (o : EsiOracle) (st : FlattenedKillMail × List Lookup) :
    FlattenedKillMail × List Lookup :=
  let fkm := st.1
  if fkm.victim.characterID > 0 then
    (match o.characterName fkm.victim.characterID with
     | .ok n => { fkm with victimCharacterName := n }
     | .error _ => fkm,
     st.2 ++ [Lookup.character fkm.victim.characterID])
  else st

/-- Lines 141-144: resolve the victim corporation name (errors ignored, so a failure
assigns the empty string the helper returned). -/
def victimCorpStep (o : EsiOracle) (st : FlattenedKillMail × List Lookup) :
    FlattenedKillMail × List Lookup :=
  let fkm := st.1
  if fkm.victim.corporationID > 0 then
    ({ fkm with victimCorpName := (o.corporationName fkm.victim.corporationID).toOption.getD "" },
     st.2 ++ [Lookup.corporation fkm.victim.corporationID])
  else st

/-- Lines 146-149: resolve the victim alliance name (errors ignored). -/
def victimAllianceStep (o : EsiOracle) (st : FlattenedKillMail × List Lookup) :
    FlattenedKillMail × List Lookup :=
  let fkm := st.1
  if fkm.victim.allianceID > 0 then
    ({ fkm with victimAllianceName := (o.allianceName fkm.victim.allianceID).toOption.getD "" },
     st.2 ++ [Lookup.alliance fkm.victim.allianceID])
  else st

/-- Result of `GetKillDetails`: the (possibly partial) flattened killmail left in
`kd.FKM`, the detail-provider calls issued, and the returned error if any. -/
structure KillDetailsResult where
  fkm : FlattenedKillMail
  log : List Lookup
  err : Option String
deriving DecidableEq, Repr

/-- `GetKillDetails` (killdetails.go lines 32-153). The raw message is carried as its
parse result (`none` = `json.Unmarshal` failure). The primary killmail fetch is
required; every name resolution afterwards is best-effort: on error the field keeps
its previous value (character/system conditional assignment) or is assigned the empty
string the failed helper returned (corp/alliance/final-attacker lookups). -/
def GetKillDetails (o : EsiOracle) (raw : Option ZkillMail) : KillDetailsResult :=
  match raw with
  | none => { fkm := {}, log := [], err := some "unmarshal zkill message" }
  | some zm =>
      let fkm : FlattenedKillMail :=
        { killMailID := zm.killmailID, solarSystemID := zm.solarSystemID }
      if zm.killmailID == 0 || zm.zkb.hash == "" then
        { fkm := fkm, log := [], err := none }
      else
        let fkm := { fkm with hash := zm.zkb.hash }
        match o.killmail zm.killmailID zm.zkb.hash with
        | .error e => { fkm := fkm, log := [Lookup.killmail zm.killmailID zm.zkb.hash], err := some e }
        | .ok km =>
            let fkm := { fkm with
              killMailTime := km.killMailTime
              solarSystemID := km.solarSystemID
              victim := km.victim
              attackers := km.attackers
              totalValue := zm.zkb.totalValue
              destroyedValue := zm.zkb.destroyedValue
              droppedValue := zm.zkb.droppedValue
              fittedValue := zm.zkb.fittedValue
              points := zm.zkb.points
              npc := zm.zkb.npc
              solo := zm.zkb.solo
              awox := zm.zkb.awox }
            let st := systemNameStep o (fkm, [Lookup.killmail zm.killmailID zm.zkb.hash])
            let st := victimShipStep o st
            let st := finalAttackerStep o st
            let st := victimCharStep o st
            let st := victimCorpStep o st
            let st := victimAllianceStep o st
            { fkm := st.1, log := st.2, err := none }

/-- Value of one hex digit, if the character is one. -/
def hexDigitVal (c : Char) : Option Nat :=
  if '0' ≤ c ∧ c ≤ '9' then some (c.toNat - '0'.toNat)
  else if 'a' ≤ c ∧ c ≤ 'f' then some (c.toNat - 'a'.toNat + 10)
  else if 'A' ≤ c ∧ c ≤ 'F' then some (c.toNat - 'A'.toNat + 10)
  else none

/-- Go's `parseHexColor`: scan `#%02x%02x%02x`; on any scan failure return 0xFFFFFF. -/
def parseHexColor (hexStr : String) : Int :=
  match hexStr.data with
  | '#' :: c1 :: c2 :: c3 :: c4 :: c5 :: c6 :: _ =>
      match hexDigitVal c1, hexDigitVal c2, hexDigitVal c3,
            hexDigitVal c4, hexDigitVal c5, hexDigitVal c6 with
      | some h1, some h2, some h3, some h4, some h5, some h6 =>
          ((h1 * 16 + h2) * 65536 + (h3 * 16 + h4) * 256 + (h5 * 16 + h6) : Nat)
      | _, _, _, _, _, _ => 16777215
  | _ => 16777215

/-- Go's `math.Round`: round to nearest integer, halves away from zero. -/
def goRound (x : ℚ) : Int :=
  if 0 ≤ x then ⌊x + 1 / 2⌋ else -⌊-x + 1 / 2⌋

/-- Round to the nearest integer with ties to even (the rounding `fmt` applies when
printing with a fixed number of decimals). -/
def roundHalfEven (x : ℚ) : Int :=
  let f := ⌊x⌋
  let r := x - (f : ℚ)
  if r < 1 / 2 then f
  else if 1 / 2 < r then f + 1
  else if f % 2 = 0 then f else f + 1

/-- Rendering of `fmt.Sprintf s!"%.1f"` applied to an exact value: one decimal digit. -/
def sprintfDec1 (x : ℚ) : String :=
  let n := roundHalfEven (x * 10)
  let sign := if n < 0 then "-" else ""
  let m := n.natAbs
  sign ++ toString (m / 10) ++ "." ++ toString (m % 10)

/-- `formatISKValue` from killdetails.go (abbreviated scheme): below one million a
fixed label; otherwise the value in millions is rounded to 2 decimals with
`math.Round` and then printed with the `%.1f` verb (one decimal digit). -/
def formatISKValue (amount : ℚ) : String :=
  if amount < 1000000 then "<1 M ISK"
  else
    let millions := amount / 1000000
    let millions := (goRound (millions * 100) : ℚ) / 100
    sprintfDec1 millions ++ "m ISK"

/-- The embed's final-attacker display name ("UnknownAttacker" when blank). -/
def embedFinalAttackerName (fkm : FlattenedKillMail) : String :=
  if fkm.finalAttackerName == "" then "UnknownAttacker" else fkm.finalAttackerName

/-- The embed's final-attacker ship display name ("UnknownShip" when blank). -/
def embedFinalAttackerShip (fkm : FlattenedKillMail) : String :=
  if fkm.finalAttackerShipName == "" then "UnknownShip" else fkm.finalAttackerShipName

/-- The embed's victim display name ("UnknownVictim" when blank). -/
def embedVictimCharName (fkm : FlattenedKillMail) : String :=
  if fkm.victimCharacterName == "" then "UnknownVictim" else fkm.victimCharacterName

/-- The embed's victim ship display name ("UnknownShip" when blank). -/
def embedVictimShipName (fkm : FlattenedKillMail) : String :=
  if fkm.victimShipName == "" then "UnknownShip" else fkm.victimShipName

/-- The victim group label: the alliance name if the alliance id is positive, else the
corporation name if that id is positive, else "UnknownGroup" (CreateEmbed). -/
def victimGroupName (fkm : FlattenedKillMail) : String :=
  if fkm.victim.allianceID > 0 then fkm.victimAllianceName
  else if fkm.victim.corporationID > 0 then fkm.victimCorpName
  else "UnknownGroup"

/-- The final-attacker group label, with the same precedence as `victimGroupName`. -/
def attackerGroupName (fkm : FlattenedKillMail) : String :=
  if fkm.finalAttackerAllianceID > 0 then fkm.finalAttackerAllianceName
  else if fkm.finalAttackerCorpID > 0 then fkm.finalAttackerCorpName
  else "UnknownGroup"

/-- The embed's system display name, with the "SystemID:<id>" fallback. -/
def embedSystemName (fkm : FlattenedKillMail) : String :=
  if fkm.systemName == "" then "SystemID:" ++ toString fkm.solarSystemID
  else fkm.systemName

/-- The "... solo." / "... and N others." description tail of `CreateEmbed`. -/
def embedDescEnd (fkm : FlattenedKillMail) : String :=
  let attackersCount := fkm.attackers.length
  if attackersCount > 1 then "and **" ++ toString (attackersCount - 1) ++ "** others"
  else "solo"

/-- The embed description assembled by `CreateEmbed`. -/
def embedDescription (fkm : FlattenedKillMail) : String :=
  let victimZkillURL := "https://zkillboard.com/character/" ++ toString fkm.victim.characterID ++ "/"
  let attackerZkillURL :=
    if fkm.finalAttackerID > 0 then
      "https://zkillboard.com/character/" ++ toString fkm.finalAttackerID ++ "/"
    else "https://zkillboard.com/"
  "**[" ++ embedVictimCharName fkm ++ "](" ++ victimZkillURL ++ ")(" ++
    victimGroupName fkm ++ ")** lost their **" ++ embedVictimShipName fkm ++
    "** to **[" ++ embedFinalAttackerName fkm ++ "](" ++ attackerZkillURL ++ ")(" ++
    attackerGroupName fkm ++ ")** flying in a **" ++ embedFinalAttackerShip fkm ++
    "** " ++ embedDescEnd fkm ++ "."

/-- Discord embed author block. -/
structure DiscordAuthor where
  name : String := ""
  url : String := ""
  iconURL : String := ""
deriving DecidableEq, Repr

/-- Discord embed footer. -/
structure DiscordFooter where
  text : String := ""
deriving DecidableEq, Repr

/-- Discord embed thumbnail. -/
structure DiscordThumbnail where
  url : String := ""
deriving DecidableEq, Repr

/-- Discord embed field (declared by the source, never populated by `CreateEmbed`). -/
structure DiscordField where
  name : String := ""
  value : String := ""
  inline : Bool := false
deriving DecidableEq, Repr

/-- Discord embed payload, mirroring the Go `DiscordEmbed` struct. -/
structure DiscordEmbed where
  title : String := ""
  url : String := ""
  description : String := ""
  color : Int := 0
  timestamp : String := ""
  footer : DiscordFooter := {}
  thumbnail : DiscordThumbnail := {}
  author : DiscordAuthor := {}
  fields : List DiscordField := []
deriving DecidableEq, Repr

/-- `pickColor`: the configured kill or loss accent color. -/
def pickColor (config : AppConfig) (isKill : Bool) : String :=
  if isKill then config.killColor else config.lossColor

/-- `CreateEmbed` (composer): builds the notification payload from the flattened
killmail; `now` stands for the `time.Now()` timestamp string. -/
def CreateEmbed (config : AppConfig) (fkm : FlattenedKillMail) (isKill : Bool)
    (now : String) : DiscordEmbed :=
  let isAwox := fkm.awox
  let intColor := parseHexColor (pickColor config isKill)
  let zkillLink := "https://zkillboard.com/kill/" ++ toString fkm.killMailID ++ "/"
  let authorText := if isAwox then "Cowardly Awox" else if isKill then "Kill" else "Loss"
  let authorImage :=
    if fkm.victim.allianceID > 0 then
      "https://image.eveonline.com/Alliance/" ++ toString fkm.victim.allianceID ++ "_64.png"
    else
      "https://image.eveonline.com/Corporation/" ++ toString fkm.victim.corporationID ++ "_64.png"
  { title := embedVictimShipName fkm ++ " destroyed in " ++ embedSystemName fkm
    url := zkillLink
    color := intColor
    timestamp := now
    author := { name := authorText, url := zkillLink, iconURL := authorImage }
    description := embedDescription fkm
    thumbnail := { url := "https://image.eveonline.com/Type/" ++ toString fkm.victim.shipTypeID ++ "_64.png" }
    footer := { text := "Value: " ++ formatISKValue fkm.totalValue }
    fields := [] }

/-- Outcome of the HTTP call `updateSystems` makes against the map API. -/
inductive UpdateOutcome where
  | ok (data : List (String × String × Int))
  | transportErr (msg : String)
  | statusErr (msg : String)
  | decodeErr (msg : String)
deriving DecidableEq, Repr

/-- True when the ASCII character is a letter (the `lastChar` range test of
`updateSystems`). -/
def isAsciiLetter (c : Char) : Bool :=
  ('A' ≤ c && c ≤ 'Z') || ('a' ≤ c && c ≤ 'z')

/-- The system-list filter of `updateSystems`: drop entries with an empty name or a
name whose last character is an ASCII letter; keep (solar_system_id, name) as
`SystemInfo`. Each data entry is (id, name, solar_system_id). -/
def filterSystems (data : List (String × String × Int)) : List SystemInfo :=
  data.filterMap fun item =>
    let name := item.2.1
    if name.length == 0 then none
    else if isAsciiLetter name.back then none
    else some { systemId := item.2.2, «alias» := name }

/-- An outward action performed while handling an event (webhook sends and the
refresh call observable at the API boundary). -/
inductive HandlerAction where
  | corpKill (embed : DiscordEmbed)
  | chainMsg (post : String)
  | infoMsg (msg : String)
  | refreshAttempt
deriving DecidableEq, Repr

/-- `updateSystems`: on success replace the whole systems list with the filtered
data; on any failure return the error (sending an info webhook for transport/status
errors) and leave the state untouched. -/
def updateSystems (ck : ChainKillChecker) (outcome : UpdateOutcome) :
    ChainKillChecker × List HandlerAction × Option String :=
  match outcome with
  | .transportErr m => (ck, [HandlerAction.infoMsg ("Error updateSystems : " ++ m)], some m)
  | .statusErr m =>
      (ck, [HandlerAction.infoMsg ("Error updateSystems : " ++ m)],
       some ("updateSystems: bad status " ++ m))
  | .decodeErr m => (ck, [], some m)
  | .ok data => ({ ck with systems := filterSystems data }, [], none)

/-- Environment of one `handleZKillMessage` call: elapsed minutes feeding the two
timer guards, the outcome the systems refresh would have, the ESI oracle used by
enrichment, and the wall-clock timestamp stamped on embeds. -/
structure HandleEnv where
  minSinceLastStatus : ℚ := 0
  minSinceLastSystems : ℚ := 0
  refreshResult : UpdateOutcome := .ok []
  esi : EsiOracle
  now : String := ""

/-- `sendCorpKillMessage`: re-parse the raw message, run `GetKillDetails` (an error is
only logged), then compose and send the embed unconditionally. Returns the embed that
is posted to the corp-kill webhook. -/
def sendCorpKillMessage (o : EsiOracle) (config : AppConfig) (now : String)
    (raw : Option ZkillMail) (isKill : Bool) : DiscordEmbed :=
  let kd := GetKillDetails o raw
  CreateEmbed config kd.fkm isKill now

/-- The chain-alert text posted for a monitored-system match. -/
def chainPost (s : SystemInfo) (zm : ZkillMail) : String :=
  "@here A ship just died in " ++ s.alias ++ " to " ++ toString zm.attackers.length ++
    " people, zkill link: https://zkillboard.com/kill/" ++ toString zm.killmailID ++ "/"

/-- The classification-and-dispatch tail of `handleZKillMessage` (the code from the
victim loop to the chain-message send): victim rule → loss embed, attacker rule →
kill embed, monitored-system rule → chain alert, otherwise nothing. -/
def classifyDispatch (ck : ChainKillChecker) (config : AppConfig) (esi : EsiOracle)
    (now : String) (zm : ZkillMail) : List HandlerAction :=
  if victimMatchB ck zm then
    [HandlerAction.corpKill (sendCorpKillMessage esi config now (some zm) false)]
  else if attackerMatchB ck zm then
    [HandlerAction.corpKill (sendCorpKillMessage esi config now (some zm) true)]
  else
    match matchedSystem ck zm with
    | some s =>
        if !ck.ignoreSystemIds.contains s.systemId then
          if !foundMappedAttackerB ck zm then [HandlerAction.chainMsg (chainPost s zm)]
          else []
        else []
    | none => []

/-- `handleZKillMessage`: parse, optional status webhook, optional systems refresh
(failures logged, handling continues), then classification and dispatch. Returns the
updated checker state, the outward actions in order, and the function's returned
error. -/
def handleZKillMessage (ck : ChainKillChecker) (config : AppConfig) (env : HandleEnv)
    (raw : Option ZkillMail) : ChainKillChecker × List HandlerAction × Option String :=
  match raw with
  | none => (ck, [], some "unmarshal zKill message")
  | some zm =>
      let statusActs : List HandlerAction :=
        if goTruncInt env.minSinceLastStatus > ck.minToSendDiscord then
          [HandlerAction.infoMsg "Chainkills checker running."]
        else []
      let (ck, refreshActs) :=
        if refreshTriggered env.minSinceLastSystems ck.minToGetLatestSystems then
          let u := updateSystems ck env.refreshResult
          (u.1, HandlerAction.refreshAttempt :: u.2.1)
        else (ck, [])
      (ck, statusActs ++ refreshActs ++ classifyDispatch ck config env.esi env.now zm, none)

/-- Is an action a corp-kill (kill/loss) notification dispatch? -/
def HandlerAction.isCorpKill : HandlerAction → Bool
  | .corpKill _ => true
  | _ => false

/-- Is an action a chain-alert dispatch? -/
def HandlerAction.isChain : HandlerAction → Bool
  | .chainMsg _ => true
  | _ => false

/-- Whether an action list dispatches a corp-kill notification. -/
def hasCorpKill (acts : List HandlerAction) : Bool :=
  acts.any HandlerAction.isCorpKill

/-- Whether an action list dispatches a chain alert. -/
def hasChain (acts : List HandlerAction) : Bool :=
  acts.any HandlerAction.isChain

/-- Connection-level state of the checker: whether a websocket is held open, and
whether the cancel function of the current dial context has been invoked. -/
structure ConnState where
  wsConnOpen : Bool := false
  ctxCancelled : Bool := false
deriving DecidableEq, Repr

/-- Observable steps of `connectAndListenZKill`. -/
inductive LoopAction where
  | dial
  | sendSub
  | socketOpenedInfo
  | readLoop
  | closeConn
  | sleep
deriving DecidableEq, Repr

/-- How the environment resolves one iteration of the reconnect loop: the dial fails,
the subscribe write fails, or the connection is eventually lost (the read loop only
returns on error — including the error produced when `Close` tears the socket down). -/
inductive IterOutcome where
  | dialFail
  | subFail
  | readErr
deriving DecidableEq, Repr

/-- One iteration of the `for` loop in `connectAndListenZKill`. It first installs a
fresh `context.WithCancel` (overwriting any cancelled one), then dials; every branch
of the body ends in `continue` or falls through to the next iteration — the returned
`Bool` is whether the loop exits after this iteration, and no branch sets it. -/
def connectIter (s : ConnState) (outcome : IterOutcome) :
    ConnState × List LoopAction × Bool :=
  let s := { s with ctxCancelled := false }
  match outcome with
  | .dialFail => (s, [LoopAction.dial, LoopAction.sleep], false)
  | .subFail =>
      ({ s with wsConnOpen := false },
       [LoopAction.dial, LoopAction.sendSub, LoopAction.closeConn, LoopAction.sleep], false)
  | .readErr =>
      ({ s with wsConnOpen := false },
       [LoopAction.dial, LoopAction.sendSub, LoopAction.socketOpenedInfo,
        LoopAction.readLoop, LoopAction.closeConn, LoopAction.sleep], false)

/-- `Close`: close the websocket if open and invoke the stored cancel function; it
touches nothing the loop consults on its next iteration. -/
def closeChecker (_s : ConnState) : ConnState :=
  { wsConnOpen := false, ctxCancelled := true }

/-- The trace of loop iterations from a starting connection state. -/
def connectTrace (outcomes : Nat → IterOutcome) : Nat → ConnState → List LoopAction
  | 0, _ => []
  | n + 1, s =>
      let r := connectIter s (outcomes 0)
      r.2.1 ++ connectTrace (fun k => outcomes (k + 1)) n r.1

/-- A local-character match among the attackers implies the attacker rule fires. -/
lemma foundMapped_imp_attackerMatch (ck : ChainKillChecker) (zm : ZkillMail)
    (h : foundMappedAttackerB ck zm = true) : attackerMatchB ck zm = true := by
  rcases List.any_eq_true.mp h with ⟨att, hmem, hmap⟩
  exact List.any_eq_true.mpr ⟨att, hmem, by simp [hmap]⟩

/-- The first-final-blow scan finds nothing exactly when no attacker is flagged. -/
lemma firstFinalBlowIdx_eq_none (l : List Attacker) :
    firstFinalBlowIdx l = none ↔ l.find? (fun a => a.finalBlow) = none := by
  induction l with
  | nil => simp [firstFinalBlowIdx]
  | cons a t ih =>
      by_cases pa : a.finalBlow
      · simp [firstFinalBlowIdx, pa, List.find?_cons_of_pos]
      · simp [firstFinalBlowIdx, pa, List.find?_cons_of_neg, ih]

/-- The first-final-blow index is in bounds. -/
lemma firstFinalBlowIdx_lt (l : List Attacker) (i : Nat)
    (h : firstFinalBlowIdx l = some i) : i < l.length := by
  induction l generalizing i with
  | nil => simp [firstFinalBlowIdx] at h
  | cons a t ih =>
      by_cases pa : a.finalBlow
      · simp [firstFinalBlowIdx, pa] at h
        simp [List.length_cons]
        omega
      · simp [firstFinalBlowIdx, pa] at h
        rcases h with ⟨j, hj, rfl⟩
        have := ih j hj
        simp [List.length_cons]
        omega

/-- At the first-final-blow index sits the first flagged attacker. -/
lemma firstFinalBlowIdx_get (l : List Attacker) (i : Nat)
    (h : firstFinalBlowIdx l = some i) :
    l.get? i = l.find? (fun a => a.finalBlow) := by
  induction l generalizing i with
  | nil => simp [firstFinalBlowIdx] at h
  | cons a t ih =>
      by_cases pa : a.finalBlow
      · simp [firstFinalBlowIdx, pa] at h
        subst h
        simp [List.find?_cons_of_pos, pa]
      · simp [firstFinalBlowIdx, pa] at h
        rcases h with ⟨j, hj, rfl⟩
        simpa [List.find?_cons_of_neg, pa] using ih j hj

/-- C2: for every event whose victim corporation or alliance id is in the tracked
watchlist, the classification is Loss, regardless of any attacker match. -/
theorem victimWatchlistLoss (ck : ChainKillChecker) (zm : ZkillMail)
    (h : zm.victim.corporationID ∈ ck.insightTrackedIds ∨
         zm.victim.allianceID ∈ ck.insightTrackedIds) :
    classify ck zm = Classification.loss := by
  have hv : victimMatchB ck zm = true := by
    rcases h with h | h
    · exact List.any_eq_true.mpr ⟨_, h, by simp⟩
    · exact List.any_eq_true.mpr ⟨_, h, by simp⟩
  simp [classify, hv]

/-- Witness for C2: an event whose victim corporation is tracked and whose attacker is
also tracked still classifies as Loss. -/
theorem victimWatchlistLossWitness :
    let ck : ChainKillChecker := { insightTrackedIds := [99000001, 12345] }
    let zm : ZkillMail :=
      { killmailID := 100
        solarSystemID := 30000142
        victim := { corporationID := 99000001, shipTypeID := 587 }
        attackers := [{ characterID := 500, corporationID := 12345, finalBlow := true }] }
    classify ck zm = Classification.loss := by
  intro ck zm
  exact victimWatchlistLoss ck zm (Or.inl (by decide))

/-- C4: for a non-empty attacker list the selected final attacker is the first one
flagged final-blow, and the first attacker overall when none is flagged. -/
theorem finalAttackerSelection (l : List Attacker) (h : l ≠ []) :
    (∀ i : Nat, firstFinalBlowIdx l = some i →
        selectedFinalAttacker l = l.find? (fun a => a.finalBlow)) ∧
    (firstFinalBlowIdx l = none → selectedFinalAttacker l = l.head?) := by
  constructor
  · intro i hi
    have hg := firstFinalBlowIdx_get l i hi
    simp [selectedFinalAttacker, finalAttackerIdx, hi]
    simpa [List.get?_eq_getElem?] using hg
  · intro hn
    have hlen : 0 < l.length := List.length_pos.mpr h
    cases l with
    | nil => simp at hlen
    | cons a t =>
        simp [selectedFinalAttacker, finalAttackerIdx, hn, List.length_cons]

/-- Witness for C4: in `[not-final, final, not-final]` the second attacker is selected;
in an all-unflagged pair the first is selected. -/
theorem finalAttackerSelectionWitness :
    let a1 : Attacker := { characterID := 1 }
    let a2 : Attacker := { characterID := 2, finalBlow := true }
    let a3 : Attacker := { characterID := 3 }
    selectedFinalAttacker [a1, a2, a3] = some a2 ∧
      selectedFinalAttacker [a1, a3] = some a1 := by
  intro a1 a2 a3
  constructor
  · have := (finalAttackerSelection [a1, a2, a3] (by simp)).1 1 (by decide)
    rw [this]
    decide
  · have := (finalAttackerSelection [a1, a3] (by simp)).2 (by decide)
    rw [this]
    rfl

/-- A sample detail provider whose lookups all succeed with schematic names. -/
def sampleOracle : EsiOracle :=
  { killmail := fun _ _ => .ok
      { killMailID := 100
        killMailTime := "2025-01-01T00:00:00Z"
        solarSystemID := 30000142
        victim := { corporationID := 99000001, characterID := 7, shipTypeID := 587 }
        attackers := [{ characterID := 500, finalBlow := true, shipTypeID := 622 }] }
    characterName := fun i => .ok ("Char" ++ toString i)
    corporationName := fun i => .ok ("Corp" ++ toString i)
    allianceName := fun i => .ok ("Alli" ++ toString i)
    typeName := fun i => .ok ("Type" ++ toString i)
    systemName := fun i => .ok ("Sys" ++ toString i) }

/-- C9 (failing input): amounts below one million collapse to the fixed label, but
2,500,000 — rounded to two decimals by the code — is printed through the `%.1f` verb
and renders with a single decimal digit, "2.5m ISK", not "2.50m ISK". -/
theorem formatISKValueOneDecimal :
    formatISKValue 999999 = "<1 M ISK" ∧
    formatISKValue 2500000 = "2.5m ISK" ∧
    formatISKValue 2500000 ≠ "2.50m ISK" := by
  refine ⟨by norm_num [formatISKValue], ?_, ?_⟩
  · norm_num [formatISKValue, goRound, sprintfDec1, roundHalfEven]
    rfl
  · norm_num [formatISKValue, goRound, sprintfDec1, roundHalfEven]
    decide

/-- C8 (counterexample): with the refresh threshold at zero — the value
`NewChainKillChecker` installs — an event arriving half a minute after the last
refresh does not trigger one, so the cache is not refreshed on every event. -/
theorem zeroThresholdNotEveryEvent :
    (NewChainKillChecker {}).minToGetLatestSystems = 0 ∧
    refreshTriggered (1 / 2) 0 = false ∧
    (let env : HandleEnv :=
       { minSinceLastSystems := 1 / 2
         refreshResult := .ok [("1", "J123456", 31000001)]
         esi := sampleOracle }
     (handleZKillMessage (NewChainKillChecker {}) {} env (some {})).1.systems = [] ∧
       filterSystems [("1", "J123456", 31000001)] =
         [{ systemId := 31000001, «alias» := "J123456" }]) := by
  have hrt : refreshTriggered (1 / 2) 0 = false := by
    norm_num [refreshTriggered, goTruncInt]
  refine ⟨rfl, hrt, ?_, ?_⟩
  · simp only [handleZKillMessage, NewChainKillChecker, hrt]
    norm_num [goTruncInt]
  · decide

/-- C8 (amended): with the threshold at zero, the elapsed-minutes guard fires exactly
when a full minute has passed since the last refresh — `int(minutes) > 0` holds iff
`1 ≤ minutes` for the non-negative elapsed values the clock produces. -/
theorem zeroThresholdRefreshIffFullMinute (q : ℚ) (hq : 0 ≤ q) :
    refreshTriggered q 0 = true ↔ 1 ≤ q := by
  unfold refreshTriggered goTruncInt
  rw [if_pos hq]
  simp only [decide_eq_true_eq, gt_iff_lt]
  rw [Int.lt_iff_add_one_le, zero_add, Int.le_floor]
  norm_num

/-- Witness for C8's amended statement: two minutes elapsed triggers the refresh. -/
theorem zeroThresholdRefreshIffFullMinuteWitness :
    refreshTriggered 2 0 = true := by
  exact (zeroThresholdRefreshIffFullMinute 2 (by norm_num)).mpr (by norm_num)

/-- Whether an update outcome is the success case. -/
def UpdateOutcome.isOk : UpdateOutcome → Bool
  | .ok _ => true
  | _ => false

/-- A failed refresh leaves the checker state untouched. -/
lemma updateSystems_error_state (ck : ChainKillChecker) (o : UpdateOutcome)
    (h : o.isOk = false) : (updateSystems ck o).1 = ck := by
  cases o <;> simp_all [updateSystems, UpdateOutcome.isOk]

/-- The refresh never dispatches kill/loss or chain notifications itself. -/
lemma updateSystems_actions (ck : ChainKillChecker) (o : UpdateOutcome) :
    hasCorpKill (updateSystems ck o).2.1 = false ∧
      hasChain (updateSystems ck o).2.1 = false := by
  cases o <;>
    simp [updateSystems, hasCorpKill, hasChain, HandlerAction.isCorpKill, HandlerAction.isChain]

/-- A refresh touches only the `systems` field. -/
lemma updateSystems_fields (ck : ChainKillChecker) (o : UpdateOutcome) :
    (updateSystems ck o).1 = { ck with systems := (updateSystems ck o).1.systems } := by
  cases o <;> rfl

/-- The checker state `handleZKillMessage` classifies against: the incoming state,
after the systems refresh when the elapsed-minutes guard fired. -/
def postRefreshState (ck : ChainKillChecker) (env : HandleEnv) : ChainKillChecker :=
  if refreshTriggered env.minSinceLastSystems ck.minToGetLatestSystems then
    (updateSystems ck env.refreshResult).1
  else ck

/-- Decomposition of `handleZKillMessage` on a parseable message: the final state is
the post-refresh state, the returned error is nil, and the kill/loss and chain
dispatches are exactly those of the classification tail. -/
lemma handle_components (ck : ChainKillChecker) (cfg : AppConfig) (env : HandleEnv)
    (zm : ZkillMail) :
    (handleZKillMessage ck cfg env (some zm)).1 = postRefreshState ck env ∧
    (handleZKillMessage ck cfg env (some zm)).2.2 = none ∧
    hasCorpKill (handleZKillMessage ck cfg env (some zm)).2.1 =
      hasCorpKill (classifyDispatch (postRefreshState ck env) cfg env.esi env.now zm) ∧
    hasChain (handleZKillMessage ck cfg env (some zm)).2.1 =
      hasChain (classifyDispatch (postRefreshState ck env) cfg env.esi env.now zm) := by
  by_cases h1 : goTruncInt env.minSinceLastStatus > ck.minToSendDiscord <;>
    by_cases h2 : refreshTriggered env.minSinceLastSystems ck.minToGetLatestSystems = true <;>
      cases henv : env.refreshResult <;>
        simp [handleZKillMessage, postRefreshState, updateSystems, h1, h2, henv,
          hasCorpKill, hasChain, List.any_append, HandlerAction.isCorpKill,
          HandlerAction.isChain]

/-- The classification tail posts a kill/loss embed exactly for Loss/Kill events. -/
lemma dispatch_corpKill_eq (ck : ChainKillChecker) (cfg : AppConfig) (esi : EsiOracle)
    (now : String) (zm : ZkillMail) :
    hasCorpKill (classifyDispatch ck cfg esi now zm) =
      (classify ck zm == Classification.loss || classify ck zm == Classification.kill) := by
  unfold classifyDispatch classify
  by_cases hv : victimMatchB ck zm
  · simp [hv, hasCorpKill, HandlerAction.isCorpKill]
  · by_cases ha : attackerMatchB ck zm
    · simp [hv, ha, hasCorpKill, HandlerAction.isCorpKill]
    · cases hm : matchedSystem ck zm with
      | none => simp [hv, ha, hm, hasCorpKill]
      | some s =>
          by_cases hig : s.systemId ∈ ck.ignoreSystemIds
          · simp [hv, ha, hm, hig, hasCorpKill]
          · by_cases hfm : foundMappedAttackerB ck zm
            · simp [hv, ha, hm, hig, hfm, hasCorpKill]
            · simp [hv, ha, hm, hig, hfm, hasCorpKill, HandlerAction.isCorpKill]

/-- The classification tail posts a chain alert exactly for SystemMatch events. -/
lemma dispatch_chain_eq (ck : ChainKillChecker) (cfg : AppConfig) (esi : EsiOracle)
    (now : String) (zm : ZkillMail) :
    hasChain (classifyDispatch ck cfg esi now zm) =
      (classify ck zm == Classification.systemMatch) := by
  unfold classifyDispatch classify
  by_cases hv : victimMatchB ck zm
  · simp [hv, hasChain, HandlerAction.isChain]
  · by_cases ha : attackerMatchB ck zm
    · simp [hv, ha, hasChain, HandlerAction.isChain]
    · cases hm : matchedSystem ck zm with
      | none => simp [hv, ha, hm, hasChain]
      | some s =>
          by_cases hig : s.systemId ∈ ck.ignoreSystemIds
          · simp [hv, ha, hm, hig, hasChain]
          · by_cases hfm : foundMappedAttackerB ck zm
            · simp [hv, ha, hm, hig, hfm, hasChain]
            · simp [hv, ha, hm, hig, hfm, hasChain, HandlerAction.isChain]

/-- C3: for an event matching neither the victim rule nor the attacker rule, a
monitored, non-ignored location with no local attacker classifies as SystemMatch,
and any local attacker forces None (the latter situation cannot in fact coexist with
a failed attacker rule, since the attacker rule already tests the local set). -/
theorem systemMatchRule (ck : ChainKillChecker) (zm : ZkillMail)
    (hv : victimMatchB ck zm = false) (ha : attackerMatchB ck zm = false) :
    (∀ s : SystemInfo, matchedSystem ck zm = some s →
        s.systemId ∉ ck.ignoreSystemIds →
        foundMappedAttackerB ck zm = false →
        classify ck zm = Classification.systemMatch) ∧
    (foundMappedAttackerB ck zm = true → classify ck zm = Classification.noMatch) := by
  constructor
  · intro s hm hig hfm
    simp [classify, hv, ha, hm, hig, hfm]
  · intro hfm
    have := foundMapped_imp_attackerMatch ck zm hfm
    rw [ha] at this
    exact absurd this (by simp)

/-- Witness for C3: an unmatched event in a monitored, non-ignored system with a
non-local attacker produces a SystemMatch (chain alert). -/
theorem systemMatchRuleWitness :
    let ck : ChainKillChecker :=
      { insightTrackedIds := [5]
        ignoreSystemIds := [31000002]
        systems := [{ systemId := 31000001, «alias» := "J123456" }]
        mapCharacters := [{ characterId := "42" }] }
    let zm : ZkillMail :=
      { killmailID := 77
        solarSystemID := 31000001
        victim := { corporationID := 7, allianceID := 8 }
        attackers := [{ characterID := 99 }] }
    classify ck zm = Classification.systemMatch := by
  intro ck zm
  exact (systemMatchRule ck zm (by decide) (by decide)).1
    { systemId := 31000001, «alias» := "J123456" } (by decide) (by decide) (by decide)

/-- C6: when the systems refresh fails, the previous snapshot stays in effect, the
handler still returns nil, and event handling proceeds to the same classification
outcome the old snapshot dictates. -/
theorem refreshFailureKeepsSnapshot (ck : ChainKillChecker) (cfg : AppConfig)
    (env : HandleEnv) (zm : ZkillMail) (herr : env.refreshResult.isOk = false) :
    (updateSystems ck env.refreshResult).1 = ck ∧
    (handleZKillMessage ck cfg env (some zm)).1 = ck ∧
    (handleZKillMessage ck cfg env (some zm)).2.2 = none ∧
    hasCorpKill (handleZKillMessage ck cfg env (some zm)).2.1 =
      (classify ck zm == Classification.loss || classify ck zm == Classification.kill) ∧
    hasChain (handleZKillMessage ck cfg env (some zm)).2.1 =
      (classify ck zm == Classification.systemMatch) := by
  have hupd := updateSystems_error_state ck env.refreshResult herr
  have hpost : postRefreshState ck env = ck := by
    unfold postRefreshState
    split
    · exact hupd
    · rfl
  have hc := handle_components ck cfg env zm
  refine ⟨hupd, ?_, hc.2.1, ?_, ?_⟩
  · rw [hc.1, hpost]
  · rw [hc.2.2.1, hpost, dispatch_corpKill_eq]
  · rw [hc.2.2.2, hpost, dispatch_chain_eq]

/-- Witness for C6: a status-500 refresh failure leaves a one-system snapshot in
place and the event in that system still produces its chain alert. -/
theorem refreshFailureKeepsSnapshotWitness :
    let ck : ChainKillChecker :=
      { systems := [{ systemId := 31000001, «alias» := "J123456" }]
        minToGetLatestSystems := 0 }
    let env : HandleEnv :=
      { minSinceLastSystems := 5
        refreshResult := .statusErr "500 Internal Server Error"
        esi := sampleOracle }
    let zm : ZkillMail := { killmailID := 77, solarSystemID := 31000001 }
    (handleZKillMessage ck {} env (some zm)).1 = ck ∧
      hasChain (handleZKillMessage ck {} env (some zm)).2.1 = true := by
  intro ck env zm
  have h := refreshFailureKeepsSnapshot ck {} env zm (by decide)
  refine ⟨h.2.1, ?_⟩
  rw [h.2.2.2.2]
  decide

/-- The refresh does not change the watchlist the victim rule reads. -/
lemma victimMatchB_updateSystems (ck : ChainKillChecker) (o : UpdateOutcome)
    (zm : ZkillMail) : victimMatchB (updateSystems ck o).1 zm = victimMatchB ck zm := by
  cases o <;> rfl

/-- The refresh does not change the sets the attacker rule reads. -/
lemma attackerMatchB_updateSystems (ck : ChainKillChecker) (o : UpdateOutcome)
    (zm : ZkillMail) : attackerMatchB (updateSystems ck o).1 zm = attackerMatchB ck zm := by
  cases o <;> rfl

/-- C1 (counterexample): a victim-matched event with no verification hash, and one
whose killmail fetch fails, both still dispatch a corp-kill notification — the
enrichment abort does not drop the event. -/
theorem fetchFailureStillDispatchesCounterexample :
    let ck : ChainKillChecker := { insightTrackedIds := [99000001] }
    let failEsi : EsiOracle := { sampleOracle with killmail := fun _ _ => .error "boom" }
    let envOk : HandleEnv := { esi := sampleOracle }
    let envFail : HandleEnv := { esi := failEsi }
    let zmNoHash : ZkillMail := { killmailID := 100, victim := { corporationID := 99000001 } }
    let zmHash : ZkillMail :=
      { killmailID := 100, victim := { corporationID := 99000001 }, zkb := { hash := "abc" } }
    hasCorpKill (handleZKillMessage ck {} envOk (some zmNoHash)).2.1 = true ∧
    (GetKillDetails sampleOracle (some zmNoHash)).err = none ∧
    (GetKillDetails sampleOracle (some zmNoHash)).log = [] ∧
    hasCorpKill (handleZKillMessage ck {} envFail (some zmHash)).2.1 = true ∧
    (GetKillDetails failEsi (some zmHash)).err = some "boom" := by
  intro ck failEsi envOk envFail zmNoHash zmHash
  exact ⟨by decide, by decide, by decide, by decide, by decide⟩

/-- C1 (amended): when the raw event has no killmail id or hash, or the primary fetch
fails, enrichment is aborted — no name-resolution lookups are issued — but the
kill/loss notification is still composed from the partial record and dispatched. -/
theorem fetchFailureAbortsEnrichmentButDispatches (ck : ChainKillChecker)
    (cfg : AppConfig) (env : HandleEnv) (zm : ZkillMail)
    (hmatch : victimMatchB ck zm = true ∨ attackerMatchB ck zm = true)
    (habort : zm.killmailID = 0 ∨ zm.zkb.hash = "" ∨
      ∃ e, env.esi.killmail zm.killmailID zm.zkb.hash = Except.error e) :
    hasCorpKill (handleZKillMessage ck cfg env (some zm)).2.1 = true ∧
    ((GetKillDetails env.esi (some zm)).log = [] ∨
      (GetKillDetails env.esi (some zm)).log = [Lookup.killmail zm.killmailID zm.zkb.hash]) := by
  constructor
  · have hv2 : victimMatchB (postRefreshState ck env) zm = victimMatchB ck zm := by
      unfold postRefreshState
      split
      · exact victimMatchB_updateSystems ck env.refreshResult zm
      · rfl
    have ha2 : attackerMatchB (postRefreshState ck env) zm = attackerMatchB ck zm := by
      unfold postRefreshState
      split
      · exact attackerMatchB_updateSystems ck env.refreshResult zm
      · rfl
    have hc := handle_components ck cfg env zm
    rw [hc.2.2.1, dispatch_corpKill_eq]
    by_cases hvv : victimMatchB ck zm = true
    · simp [classify, hv2, hvv]
    · have haa : attackerMatchB ck zm = true := by
        rcases hmatch with h | h
        · exact absurd h hvv
        · exact h
      simp [classify, hv2, ha2, hvv, haa]
  · by_cases h0 : (zm.killmailID == 0 || zm.zkb.hash == "") = true
    · left
      simp [GetKillDetails, h0]
    · right
      rcases habort with h | h | ⟨e, he⟩
      · exact absurd (by simp [h]) h0
      · exact absurd (by simp [h]) h0
      · simp [GetKillDetails, h0, he]

/-- Witness for C1's amended statement: a tracked-victim event without a hash still
yields a corp-kill dispatch, with an empty lookup log. -/
theorem fetchFailureAbortsEnrichmentButDispatchesWitness :
    let ck : ChainKillChecker := { insightTrackedIds := [99000001] }
    let env : HandleEnv := { esi := sampleOracle }
    let zm : ZkillMail := { killmailID := 100, victim := { corporationID := 99000001 } }
    hasCorpKill (handleZKillMessage ck {} env (some zm)).2.1 = true ∧
      (GetKillDetails sampleOracle (some zm)).log = [] := by
  intro ck env zm
  have h := fetchFailureAbortsEnrichmentButDispatches ck {} env zm
    (Or.inl (by decide)) (Or.inr (Or.inl (by decide)))
  exact ⟨h.1, by decide⟩

set_option maxRecDepth 4000 in
/-- C5 (counterexample): a failed victim-alliance-name lookup (empty name, positive
alliance id) is rendered as an empty group label, not as the "UnknownGroup"
placeholder; the notification itself is still composed. -/
theorem groupPlaceholderCounterexample :
    let fkm : FlattenedKillMail :=
      { killMailID := 100
        solarSystemID := 30000142
        victim := { allianceID := 99, corporationID := 98, characterID := 7, shipTypeID := 587 }
        attackers := [{ characterID := 500, finalBlow := true }]
        victimCharacterName := "Alice"
        victimShipName := "Rifter"
        victimAllianceName := ""
        finalAttackerID := 500
        finalAttackerName := "Bob"
        finalAttackerShipName := "Sabre" }
    victimGroupName fkm = "" ∧
    (CreateEmbed {} fkm false "T").description =
      "**[Alice](https://zkillboard.com/character/7/)()** lost their **Rifter** to " ++
        "**[Bob](https://zkillboard.com/character/500/)(UnknownGroup)** flying in a " ++
        "**Sabre** solo." ∧
    CreateEmbed {} fkm false "T" ≠
      CreateEmbed {} { fkm with victimAllianceName := "UnknownGroup" } false "T" := by
  intro fkm
  exact ⟨by decide, by decide, by decide⟩

/-- C5 (amended): a failed character or ship name lookup is replaced by its placeholder
("UnknownVictim"/"UnknownAttacker"/"UnknownShip") with every other embed field
unchanged, and a missing system name falls back to "SystemID:<id>"; but a failed
corporation/alliance name lookup with a positive group id yields an empty group label —
"UnknownGroup" appears only when neither group id is positive. -/
theorem placeholderSubstitution (cfg : AppConfig) (fkm : FlattenedKillMail)
    (isKill : Bool) (now : String) :
    (CreateEmbed cfg { fkm with victimCharacterName := "" } isKill now =
       CreateEmbed cfg { fkm with victimCharacterName := "UnknownVictim" } isKill now) ∧
    (CreateEmbed cfg { fkm with victimShipName := "" } isKill now =
       CreateEmbed cfg { fkm with victimShipName := "UnknownShip" } isKill now) ∧
    (CreateEmbed cfg { fkm with finalAttackerName := "" } isKill now =
       CreateEmbed cfg { fkm with finalAttackerName := "UnknownAttacker" } isKill now) ∧
    (CreateEmbed cfg { fkm with finalAttackerShipName := "" } isKill now =
       CreateEmbed cfg { fkm with finalAttackerShipName := "UnknownShip" } isKill now) ∧
    ((CreateEmbed cfg { fkm with systemName := "" } isKill now).title =
       embedVictimShipName fkm ++ " destroyed in " ++
         ("SystemID:" ++ toString fkm.solarSystemID)) ∧
    (fkm.victim.allianceID > 0 →
       victimGroupName { fkm with victimAllianceName := "" } = "") ∧
    (¬fkm.victim.allianceID > 0 → fkm.victim.corporationID > 0 →
       victimGroupName { fkm with victimCorpName := "" } = "") := by
  refine ⟨?_, ?_, ?_, ?_, ?_, ?_, ?_⟩
  case refine_6 =>
    intro h
    simp [victimGroupName, h]
  case refine_7 =>
    intro h1 h2
    simp [victimGroupName, h1, h2]
  all_goals
    simp [CreateEmbed, embedDescription, embedVictimCharName, embedVictimShipName,
      embedFinalAttackerName, embedFinalAttackerShip, victimGroupName,
      attackerGroupName, embedSystemName, embedDescEnd, String.append_assoc]

/-- Witness for C5's amended statement: at a concrete record the empty victim name is
substituted by "UnknownVictim", and a positive alliance id with an empty alliance name
yields an empty group label. -/
theorem placeholderSubstitutionWitness :
    CreateEmbed {} { victimCharacterName := "" } false "T" =
      CreateEmbed {} { victimCharacterName := "UnknownVictim" } false "T" ∧
    victimGroupName { victim := { allianceID := 3 }, victimAllianceName := "" } = "" := by
  constructor
  · exact (placeholderSubstitution {} {} false "T").1
  · exact (placeholderSubstitution {} { victim := { allianceID := 3 } } false "T").2.2.2.2.2.1
      (by decide)

/-- C7 (code bug): after `Close` — which closes the socket and cancels the stored
context — the very next iteration of the reconnect loop installs a fresh context and
dials the feed again, and no iteration ever signals loop exit: reconnection attempts
do not stop. -/
theorem closeDoesNotStopReconnect (s : ConnState) (outcome : IterOutcome)
    (outcomes : Nat → IterOutcome) :
    (connectIter (closeChecker s) outcome).2.1.head? = some LoopAction.dial ∧
    (connectIter (closeChecker s) outcome).2.2 = false ∧
    (connectIter (closeChecker s) outcome).1.ctxCancelled = false ∧
    LoopAction.dial ∈ connectTrace outcomes 1 (closeChecker s) := by
  refine ⟨?_, ?_, ?_, ?_⟩ <;>
    cases outcome <;>
      first
        | rfl
        | (cases h0 : outcomes 0 <;> simp [connectTrace, connectIter, closeChecker, h0])

/-- No final-attacker field is set yet and the attacker list is empty. -/
def noFinalAttacker (fkm : FlattenedKillMail) : Prop :=
  fkm.finalAttackerID = 0 ∧ fkm.finalAttackerCorpID = 0 ∧
    fkm.finalAttackerAllianceID = 0 ∧ fkm.finalAttackerName = "" ∧
    fkm.finalAttackerCorpName = "" ∧ fkm.finalAttackerAllianceName = "" ∧
    fkm.finalAttackerShipName = ""

/-- The four victim/system name steps never touch the final-attacker fields or the
attacker list. -/
lemma nameSteps_preserve (o : EsiOracle) (st : FlattenedKillMail × List Lookup) :
    ((systemNameStep o st).1.finalAttackerID = st.1.finalAttackerID ∧
      (systemNameStep o st).1.finalAttackerCorpID = st.1.finalAttackerCorpID ∧
      (systemNameStep o st).1.finalAttackerAllianceID = st.1.finalAttackerAllianceID ∧
      (systemNameStep o st).1.finalAttackerName = st.1.finalAttackerName ∧
      (systemNameStep o st).1.finalAttackerCorpName = st.1.finalAttackerCorpName ∧
      (systemNameStep o st).1.finalAttackerAllianceName = st.1.finalAttackerAllianceName ∧
      (systemNameStep o st).1.finalAttackerShipName = st.1.finalAttackerShipName ∧
      (systemNameStep o st).1.attackers = st.1.attackers) ∧
    ((victimShipStep o st).1.finalAttackerID = st.1.finalAttackerID ∧
      (victimShipStep o st).1.finalAttackerCorpID = st.1.finalAttackerCorpID ∧
      (victimShipStep o st).1.finalAttackerAllianceID = st.1.finalAttackerAllianceID ∧
      (victimShipStep o st).1.finalAttackerName = st.1.finalAttackerName ∧
      (victimShipStep o st).1.finalAttackerCorpName = st.1.finalAttackerCorpName ∧
      (victimShipStep o st).1.finalAttackerAllianceName = st.1.finalAttackerAllianceName ∧
      (victimShipStep o st).1.finalAttackerShipName = st.1.finalAttackerShipName ∧
      (victimShipStep o st).1.attackers = st.1.attackers) ∧
    ((victimCharStep o st).1.finalAttackerID = st.1.finalAttackerID ∧
      (victimCharStep o st).1.finalAttackerCorpID = st.1.finalAttackerCorpID ∧
      (victimCharStep o st).1.finalAttackerAllianceID = st.1.finalAttackerAllianceID ∧
      (victimCharStep o st).1.finalAttackerName = st.1.finalAttackerName ∧
      (victimCharStep o st).1.finalAttackerCorpName = st.1.finalAttackerCorpName ∧
      (victimCharStep o st).1.finalAttackerAllianceName = st.1.finalAttackerAllianceName ∧
      (victimCharStep o st).1.finalAttackerShipName = st.1.finalAttackerShipName ∧
      (victimCharStep o st).1.attackers = st.1.attackers) ∧
    ((victimCorpStep o st).1.finalAttackerID = st.1.finalAttackerID ∧
      (victimCorpStep o st).1.finalAttackerCorpID = st.1.finalAttackerCorpID ∧
      (victimCorpStep o st).1.finalAttackerAllianceID = st.1.finalAttackerAllianceID ∧
      (victimCorpStep o st).1.finalAttackerName = st.1.finalAttackerName ∧
      (victimCorpStep o st).1.finalAttackerCorpName = st.1.finalAttackerCorpName ∧
      (victimCorpStep o st).1.finalAttackerAllianceName = st.1.finalAttackerAllianceName ∧
      (victimCorpStep o st).1.finalAttackerShipName = st.1.finalAttackerShipName ∧
      (victimCorpStep o st).1.attackers = st.1.attackers) ∧
    ((victimAllianceStep o st).1.finalAttackerID = st.1.finalAttackerID ∧
      (victimAllianceStep o st).1.finalAttackerCorpID = st.1.finalAttackerCorpID ∧
      (victimAllianceStep o st).1.finalAttackerAllianceID = st.1.finalAttackerAllianceID ∧
      (victimAllianceStep o st).1.finalAttackerName = st.1.finalAttackerName ∧
      (victimAllianceStep o st).1.finalAttackerCorpName = st.1.finalAttackerCorpName ∧
      (victimAllianceStep o st).1.finalAttackerAllianceName = st.1.finalAttackerAllianceName ∧
      (victimAllianceStep o st).1.finalAttackerShipName = st.1.finalAttackerShipName ∧
      (victimAllianceStep o st).1.attackers = st.1.attackers) := by
  refine ⟨?_, ?_, ?_, ?_, ?_⟩ <;>
    · simp only [systemNameStep, victimShipStep, victimCharStep, victimCorpStep,
        victimAllianceStep]
      split <;> (try split) <;> simp

/-- A step applied to a record whose attacker list is empty does nothing in the
final-attacker block. -/
lemma finalAttackerStep_empty (o : EsiOracle) (st : FlattenedKillMail × List Lookup)
    (h : st.1.attackers = []) : finalAttackerStep o st = st := by
  unfold finalAttackerStep finalAttackerEnrich selectedFinalAttacker finalAttackerIdx
    firstFinalBlowIdx
  rw [h]
  simp

/-- Pushing a record with no final-attacker data and an empty attacker list through
the whole name-resolution chain leaves the final-attacker fields empty. -/
lemma chain_noFinalAttacker (o : EsiOracle) (st : FlattenedKillMail × List Lookup)
    (h : noFinalAttacker st.1) (ha : st.1.attackers = []) :
    noFinalAttacker (victimAllianceStep o (victimCorpStep o (victimCharStep o
      (finalAttackerStep o (victimShipStep o (systemNameStep o st)))))).1 := by
  have step : ∀ t : FlattenedKillMail × List Lookup,
      ∀ f : (FlattenedKillMail × List Lookup) → FlattenedKillMail × List Lookup,
      ((f t).1.finalAttackerID = t.1.finalAttackerID ∧
        (f t).1.finalAttackerCorpID = t.1.finalAttackerCorpID ∧
        (f t).1.finalAttackerAllianceID = t.1.finalAttackerAllianceID ∧
        (f t).1.finalAttackerName = t.1.finalAttackerName ∧
        (f t).1.finalAttackerCorpName = t.1.finalAttackerCorpName ∧
        (f t).1.finalAttackerAllianceName = t.1.finalAttackerAllianceName ∧
        (f t).1.finalAttackerShipName = t.1.finalAttackerShipName ∧
        (f t).1.attackers = t.1.attackers) →
      noFinalAttacker t.1 ∧ t.1.attackers = [] →
      noFinalAttacker (f t).1 ∧ (f t).1.attackers = [] := by
    rintro t f ⟨e1, e2, e3, e4, e5, e6, e7, e8⟩ ⟨⟨g1, g2, g3, g4, g5, g6, g7⟩, g8⟩
    exact ⟨⟨e1.trans g1, e2.trans g2, e3.trans g3, e4.trans g4, e5.trans g5,
      e6.trans g6, e7.trans g7⟩, e8.trans g8⟩
  have h1 := step st (systemNameStep o) (nameSteps_preserve o st).1 ⟨h, ha⟩
  have h2 := step _ (victimShipStep o) (nameSteps_preserve o _).2.1 h1
  have h3 : finalAttackerStep o (victimShipStep o (systemNameStep o st)) =
      victimShipStep o (systemNameStep o st) :=
    finalAttackerStep_empty o _ h2.2
  rw [h3]
  have h4 := step _ (victimCharStep o) (nameSteps_preserve o _).2.2.1 h2
  have h5 := step _ (victimCorpStep o) (nameSteps_preserve o _).2.2.2.1 h4
  have h6 := step _ (victimAllianceStep o) (nameSteps_preserve o _).2.2.2.2 h5
  exact h6.1

/-- C10: the selected index is always in bounds when non-negative; with an empty
attacker list in the detail record the index stays -1, the final-attacker block
performs no lookup and writes nothing, enrichment returns without error, and every
final-attacker field of the resulting record keeps its zero value. -/
theorem emptyAttackerListSafe (o : EsiOracle) (zm : ZkillMail) (km : EsiKillMail)
    (hid : ¬zm.killmailID = 0) (hh : ¬zm.zkb.hash = "")
    (hk : o.killmail zm.killmailID zm.zkb.hash = Except.ok km)
    (hatt : km.attackers = []) :
    (∀ l : List Attacker, 0 ≤ finalAttackerIdx l → (finalAttackerIdx l).toNat < l.length) ∧
    finalAttackerIdx km.attackers = -1 ∧
    (∀ f : FlattenedKillMail, finalAttackerEnrich o km.attackers f = (f, [])) ∧
    (GetKillDetails o (some zm)).err = none ∧
    noFinalAttacker (GetKillDetails o (some zm)).fkm := by
  have hbounds : ∀ l : List Attacker, 0 ≤ finalAttackerIdx l →
      (finalAttackerIdx l).toNat < l.length := by
    intro l hl
    unfold finalAttackerIdx at hl ⊢
    cases hf : firstFinalBlowIdx l with
    | some i =>
        have := firstFinalBlowIdx_lt l i hf
        simp [hf]
        omega
    | none =>
        simp [hf] at hl ⊢
        by_cases hlen : l.length > 0
        · simp [hlen]
        · simp [hlen] at hl
  have hidx : finalAttackerIdx km.attackers = -1 := by
    rw [hatt]
    rfl
  have henr : ∀ f : FlattenedKillMail, finalAttackerEnrich o km.attackers f = (f, []) := by
    intro f
    rw [hatt]
    rfl
  have h0 : (zm.killmailID == 0 || zm.zkb.hash == "") = false := by
    simp [hid, hh]
  refine ⟨hbounds, hidx, henr, ?_, ?_⟩
  · simp only [GetKillDetails, h0, Bool.false_eq_true, if_false, hk]
  · simp only [GetKillDetails, h0, Bool.false_eq_true, if_false, hk]
    exact chain_noFinalAttacker o _ ⟨rfl, rfl, rfl, rfl, rfl, rfl, rfl⟩ hatt

/-- Witness for C10: a concrete event whose detail record has no attackers enriches
without error, leaves every final-attacker field zero/empty, and issues only the
killmail fetch and the victim-side lookups. -/
theorem emptyAttackerListSafeWitness :
    let esi : EsiOracle :=
      { sampleOracle with killmail := fun _ _ => .ok (
          { killMailID := 100
            killMailTime := "2025-01-01T00:00:00Z"
            solarSystemID := 30000142
            victim := { corporationID := 99000001, characterID := 7, shipTypeID := 587 }
            attackers := [] } : EsiKillMail) }
    let zm : ZkillMail := { killmailID := 100, zkb := { hash := "abc" } }
    (GetKillDetails esi (some zm)).err = none ∧
      noFinalAttacker (GetKillDetails esi (some zm)).fkm ∧
      (GetKillDetails esi (some zm)).log =
        [Lookup.killmail 100 "abc", Lookup.system 30000142, Lookup.typeName 587,
          Lookup.character 7, Lookup.corporation 99000001] := by
  intro esi zm
  have h := emptyAttackerListSafe esi zm
    { killMailID := 100
      killMailTime := "2025-01-01T00:00:00Z"
      solarSystemID := 30000142
      victim := { corporationID := 99000001, characterID := 7, shipTypeID := 587 }
      attackers := [] }
    (by decide) (by decide) rfl rfl
  exact ⟨h.2.2.2.1, h.2.2.2.2, by decide⟩
